import Mathlib

/-!
Shallow embedding of `src/tockloader/jlinkexe.py` (class `JLinkExe`), the
JTAG-via-JLinkExe board adapter of tockloader, together with the collaborator
pieces its methods use (`board_interface.py` is not part of the sources, so
those pieces are modelled from the specification where needed and marked as
such).

Python idioms are translated explicitly: truthiness tests on optional strings
and on integers become explicit predicates, Python dictionaries become ordered
association lists, exceptions become an explicit error component in the result,
and the subprocess boundary becomes a parameter describing the outcome of the
external JLinkExe invocation.  A field that Python can hold at more than one
runtime type (`page_size`, which the attribute loop assigns a string) is
modelled by the sum type `PyVal`.
-/

namespace Tockloader

/-- Decidable equality for `Except`, so that concrete runs of the model can
be checked by `decide`. -/
instance instDecEqExcept {ε α : Type} [DecidableEq ε] [DecidableEq α] :
    DecidableEq (Except ε α)
  | .error e, .error f =>
    if h : e = f then .isTrue (congrArg Except.error h)
    else .isFalse (fun hh => h (Except.error.inj hh))
  | .ok x, .ok y =>
    if h : x = y then .isTrue (congrArg Except.ok h)
    else .isFalse (fun hh => h (Except.ok.inj hh))
  | .error _, .ok _ => .isFalse (fun hh => Except.noConfusion hh)
  | .ok _, .error _ => .isFalse (fun hh => Except.noConfusion hh)

/-! ## Basic string utilities (kernel-computable models of the Python ones) -/

/-- Infix test on character lists: does `needle` occur contiguously in the
second list? -/
def isInfixOfChars (needle : List Char) : List Char → Bool
  | [] => needle.isEmpty
  | x :: xs => needle.isPrefixOf (x :: xs) || isInfixOfChars needle xs

/-- Python `sub in s` substring test, on character lists. -/
def containsSub (sub s : String) : Bool :=
  isInfixOfChars sub.toList s.toList

/-- Split a character list on a separator character; models Python
`str.split(sep)` with a single-character separator (always returns at least
one piece, `""` splits to `[""]`). -/
def splitOnChar (c : Char) : List Char → List (List Char)
  | [] => [[]]
  | x :: xs =>
    let r := splitOnChar c xs
    if x == c then [] :: r
    else
      match r with
      | [] => [[x]]
      | y :: ys => (x :: y) :: ys

/-- Join character lists with a separator character (inverse of
`splitOnChar` on the tail pieces; used to model Python `split(sep, 1)`). -/
def joinWithChar (c : Char) : List (List Char) → List Char
  | [] => []
  | [x] => x
  | x :: xs => x ++ c :: joinWithChar c xs

/-- Whitespace recognizer for the model of Python `str.strip()`. -/
def isSpaceChar (c : Char) : Bool :=
  c == ' ' || c == '\t' || c == '\n' || c == '\r'

/-- Model of Python `str.strip()` on character lists. -/
def stripChars (l : List Char) : List Char :=
  ((l.dropWhile isSpaceChar).reverse.dropWhile isSpaceChar).reverse

/-- Model of Python `str.strip()` on strings. -/
def pyStrip (s : String) : String :=
  String.mk (stripChars s.toList)

/-- Model of Python `str.startswith(p)`. -/
def pyStartsWith (s p : String) : Bool :=
  p.toList.isPrefixOf s.toList

/-- Python `"{:#x}".format(a)` for a nonnegative address. -/
def fmtHex (a : Nat) : String :=
  "0x" ++ String.mk (Nat.toDigits 16 a)

/-! ## Errors

Each constructor stands for one exception the Python code can raise:
`TockLoaderException` instances are told apart by their message site, and the
Python builtin exceptions that faithful modelling needs are kept explicit. -/

/-- The exceptions raisable by the adapter code (jlinkexe.py) and the Python
builtins its slips can raise. -/
inductive TLError
  /-- `TockLoaderException("JTAG error")`, nonzero subprocess exit. -/
  | jtagExitError
  /-- `TockLoaderException("ERROR: Cannot find JLink hardware...")`. -/
  | usbFailed
  /-- `TockLoaderException("ERROR: Cannot find device. Is JTAG connected?")`. -/
  | cannotConnect
  /-- `TockLoaderException("ERROR: Problem flashing.")`. -/
  | flashProgramming
  /-- `ChannelAddressErrorException`. -/
  | channelAddressError
  /-- `TockLoaderException("Unknown JLink Device type...")` (line 145). -/
  | unknownJlinkDevice
  /-- `TockLoaderException("Could not determine the current board...")` (line 445). -/
  | couldNotDetermineBoard
  /-- Python `KeyError` (missing dictionary key). -/
  | keyError
  /-- Python `IndexError` (list index out of range). -/
  | indexError
  /-- Python `TypeError` (e.g. comparing `str` with `int`). -/
  | typeError
  /-- Python `NameError` (reference to an undefined name). -/
  | nameError
deriving DecidableEq, Repr

/-! ## Session state -/

/-- A Python value that is either an `int` or a `str`; needed because
`determine_current_board` assigns the string attribute value straight into
the integer-typed `page_size` field. -/
inductive PyVal
  | int (n : Int)
  | str (s : String)
deriving DecidableEq, Repr

/-- Python `v == 0` for a `PyVal` (comparing a `str` with `0` is `False`). -/
def pyEqZero : PyVal → Bool
  | .int n => n == 0
  | .str _ => false

/-- Python `v > 0` for a `PyVal`; ordering a `str` against an `int` raises
`TypeError` in Python 3. -/
def pyGtZero : PyVal → Except TLError Bool
  | .int n => .ok (decide (0 < n))
  | .str _ => .error .typeError

/-- Python truthiness of an optional string (`None` and `""` are falsy). -/
def strTruthy : Option String → Bool
  | none => false
  | some s => !(s == "")

/-- Session State of the `JLinkExe` adapter: the mutable fields of the object
that the claims concern (`self.board`, `self.arch`, `self.jlink_device`,
`self.jlink_if`, `self.jlink_speed`, `self.address_maximum`,
`self.page_size`). -/
structure State where
  board : Option String
  arch : Option String
  jlink_device : String
  jlink_if : Option String
  jlink_speed : Option Int
  address_maximum : Option Nat
  page_size : PyVal
deriving DecidableEq, Repr

/-! ## Script Execution Engine: output classification

`_run_jtag_commands` (lines 213-239) runs JLinkExe and then classifies its
exit code and combined standard output.  The classification is the pure core
of the engine and is embedded as `classifyJtagOutput`. -/

/-- Exit-code and output-text classification performed by
`_run_jtag_commands` (jlinkexe.py lines 216-239): nonzero exit is a JTAG
execution error; on zero exit the output is scanned for `"USB...FAILED"`,
then for either connect-failure phrasing, then for the flash-programming
failure phrasing; no match means success. -/
def classifyJtagOutput (returncode : Int) (stdout : String) : Except TLError Unit :=
  if returncode != 0 then .error .jtagExitError
  else if containsSub "USB...FAILED" stdout then .error .usbFailed
  else if containsSub "Can not connect to target." stdout
       || containsSub "Cannot connect to target." stdout then .error .cannotConnect
  else if containsSub "Error while programming flash" stdout then .error .flashProgramming
  else .ok ()

/-! ## Probe Enumerator -/

/-- One enumerated probe record: a Python dict as an ordered association
list of string keys and string values. -/
abbrev Emulator := List (String × String)

/-- Python `d[k]` on an `Emulator` dict: `KeyError` when the key is absent. -/
def dictGet (d : Emulator) (k : String) : Except TLError String :=
  match d.find? (fun p => p.1 == k) with
  | some p => .ok p.2
  | none => .error .keyError

/-- Python `d[k] = v` on an `Emulator` dict (insertion order preserved,
existing key overwritten in place). -/
def dictSet (d : Emulator) (k v : String) : Emulator :=
  if (d.find? (fun p => p.1 == k)).isSome then
    d.map (fun p => if p.1 == k then (k, v) else p)
  else
    d ++ [(k, v)]

/-- `_get_tockloader_board_from_emulators` (jlinkexe.py lines 52-104).
Examines only the first record.  The source is a sequence of independent
`if` statements each ending in `return`; since they test the same
`ProductName` value against distinct literals they are rendered as an
`if`-chain.  The `"J-Link (unknown)"` case only logs warnings and falls
through to `None`.  The `"J-Link"` case additionally reads the
`"Serial number"` key (a `KeyError` if absent, faithful to
`emulator["Serial number"]`). -/
def get_tockloader_board_from_emulators (emulators : List Emulator) :
    Except TLError (Option String) :=
  match emulators with
  | [] => .ok none
  | emulator :: _ =>
    match dictGet emulator "ProductName" with
    | .error e => .error e
    | .ok pn =>
      if pn == "J-Link PRO" then .ok (some "stm32f4discovery")
      else if pn == "J-Link OB-SAM3U128-V2-NordicSem" then .ok (some "nrf52dk")
      else if pn == "J-Link OB-nRF5340-NordicSemi" then .ok (some "nrf52dk")
      else if pn == "J-Link" then
        match dictGet emulator "Serial number" with
        | .error e => .error e
        | .ok sn =>
          if pyStartsWith sn "97900" then .ok (some "hifive1b")
          else .ok none
      else if pn == "J-Link OB-K22-SiFive" then .ok (some "hifive1b")
      else if pn == "J-Link OB-STM32F072-128KB-Corte" then .ok (some "nrf52dk")
      else .ok none

/-- Outcome of the `subprocess.run` call made by `_list_emulators`:
the tool may be missing (`FileNotFoundError`), some other exception may be
raised by the launch or decode, or the tool ran and produced an exit code
and standard output. -/
inductive SubprocessOutcome
  | notFound
  | otherError
  | ran (returncode : Int) (stdout : String)
deriving DecidableEq, Repr

/-- Parse one comma-separated `key: value` parameter list into an emulator
dict (jlinkexe.py lines 316-319): each parameter is split on `":"`,
`kvs[1]` raises `IndexError` when there is no colon. -/
def parseParams : List String → Emulator → Except TLError Emulator
  | [], emu => .ok emu
  | p :: rest, emu =>
    match splitOnChar ':' p.toList with
    | k :: v :: _ => parseParams rest (dictSet emu (pyStrip (String.mk k)) (pyStrip (String.mk v)))
    | _ => .error .indexError

/-- Model of Python `l.split(":", 1)`: at most one split, the remainder
re-joined. -/
def pySplitColon1 (l : String) : List String :=
  match splitOnChar ':' l.toList with
  | [] => []
  | [x] => [String.mk x]
  | x :: rest => [String.mk x, String.mk (joinWithChar ':' rest)]

/-- The line-parsing loop of `_list_emulators` (jlinkexe.py lines 312-320).
Lines containing `"J-Link["` are parsed into records; any parse exception
aborts the loop (it is swallowed by the surrounding bare `except`), keeping
the records accumulated so far. -/
def parseEmulators : List String → List Emulator → List Emulator
  | [], acc => acc
  | l :: rest, acc =>
    if containsSub "J-Link[" l then
      match pySplitColon1 l with
      | _ :: paramStr :: _ =>
        match parseParams ((splitOnChar ',' paramStr.toList).map String.mk) [] with
        | .ok emu => parseEmulators rest (acc ++ [emu])
        | .error _ => acc
      | _ => acc
    else parseEmulators rest acc

/-- `_list_emulators` (jlinkexe.py lines 263-337), parameterized by the host
platform, the debug flag, and the outcome of the JLinkExe subprocess.  The
whole launch-and-parse block sits in a `try` whose handlers swallow every
exception, so a missing tool, a nonzero exit (which raises
`TockLoaderException` inside the `try`), or any other launch error leaves the
accumulated list empty.  After the `try`, on Windows without the debug flag,
the cleanup branch executes `os.remove(temp_bin.name)` -- but `temp_bin` is
never defined in this function, so that line raises `NameError` (line 335). -/
def list_emulators (isWindows debug : Bool) (outcome : SubprocessOutcome) :
    Except TLError (List Emulator) :=
  let emulators : List Emulator :=
    match outcome with
    | .notFound => []
    | .otherError => []
    | .ran rc stdout =>
      if rc != 0 then []
      else parseEmulators ((splitOnChar '\n' stdout.toList).map String.mk) []
  if isWindows && !debug then .error .nameError
  else .ok emulators

/-! ## Known-boards table (external collaborator, board_interface.py) -/

/-- The `"jlink"` sub-dictionary of a known-boards entry: required chip
variant plus optional interface mode, clock speed and maximum address. -/
structure JlinkParams where
  device : String
  jif : Option String
  speed : Option Int
  addressMaximum : Option Nat
deriving DecidableEq, Repr

/-- One entry of the known-boards table: the optional `"jlink"`
sub-dictionary plus the board-wide secondary settings consumed by the shared
configure step (architecture, page size). -/
structure BoardEntry where
  jlink : Option JlinkParams
  arch : Option String
  pageSize : Option Int
deriving DecidableEq, Repr

/-- The known-boards table, keyed by board identifier. -/
abbrev KnownBoards := List (String × BoardEntry)

/-- Python `b in KNOWN_BOARDS` / `KNOWN_BOARDS[b]` lookup. -/
def lookupBoard (kb : KnownBoards) (b : String) : Option BoardEntry :=
  (kb.find? (fun p => p.1 == b)).map (fun p => p.2)

/-- Modelled from the spec: `_configure_from_known_boards` is defined in
`board_interface.py`, which is not among the sources.  Per spec sections
4.2, 4.5 and 6 it applies board-family-wide secondary settings from the
known-boards table to fields that are still unset: architecture only if
unset, page size only if still zero.  It does not touch the jlink device,
interface mode or clock speed fields. -/
def configureFromKnownBoards (kb : KnownBoards) (s : State) : State :=
  match s.board with
  | none => s
  | some bd =>
    match lookupBoard kb bd with
    | none => s
    | some entry =>
      let s1 :=
        match s.arch, entry.arch with
        | none, some a => { s with arch := some a }
        | _, _ => s
      if pyEqZero s1.page_size then
        match entry.pageSize with
        | some p => { s1 with page_size := PyVal.int p }
        | none => s1
      else s1

/-! ## Board Parameter Resolver: `open_link_to_board` -/

/-- The command-line arguments `open_link_to_board` reads
(`args.jlink_device` defaults to `"cortex-m0"`, the other two to `None`). -/
structure Args where
  jlink_device : String
  jlink_speed : Option Int
  jlink_if : Option String
deriving DecidableEq, Repr

/-- Lines 107-110: adopt the command-line settings into Session State. -/
def adoptArgs (args : Args) (s : State) : State :=
  { s with
    jlink_device := args.jlink_device,
    jlink_speed := args.jlink_speed,
    jlink_if := args.jlink_if }

/-- Lines 116-120: when no board is set and the device is still the generic
placeholder, enumerate probes and adopt any identified board (`if board:` is
a Python truthiness test, so an empty-string identifier is not adopted). -/
def inferBoard (em : List Emulator) (s : State) : State × Option TLError :=
  if s.board.isNone && s.jlink_device == "cortex-m0" then
    match get_tockloader_board_from_emulators em with
    | .error e => (s, some e)
    | .ok none => (s, none)
    | .ok (some bd) => (if bd == "" then s else { s with board := some bd }, none)
  else (s, none)

/-- Lines 138-142 of `open_link_to_board`: the address-maximum optional
setting (with the same `board["jlink"]` `KeyError` behavior as the other
optional settings) followed by the shared configure step. -/
def finishKnownBoard (kb : KnownBoards) (entry : BoardEntry) (s : State) :
    State × Option TLError :=
  if s.address_maximum.isNone then
    match entry.jlink with
    | none => (s, some .keyError)
    | some jp =>
      let s3 :=
        match jp.addressMaximum with
        | some v => { s with address_maximum := some v }
        | none => s
      (configureFromKnownBoards kb s3, none)
  else (configureFromKnownBoards kb s, none)

/-- Lines 124-142: if the (truthy) board is in the known-boards table, copy
the required chip variant (only when still generic, and only when the entry
has a `"jlink"` sub-dict, line 130) and the optional settings.  Each
optional line first tests `self.<field> == None` and only then evaluates
`board["jlink"]`, which raises `KeyError` when the entry has no `"jlink"`
key (lines 134, 136, 138).  Finally the shared configure step runs
(line 142). -/
def applyKnownBoard (kb : KnownBoards) (s : State) : State × Option TLError :=
  match s.board with
  | none => (s, none)
  | some bd =>
    if bd == "" then (s, none)
    else
      match lookupBoard kb bd with
      | none => (s, none)
      | some entry =>
        let s1 :=
          if s.jlink_device == "cortex-m0" then
            match entry.jlink with
            | some jp => { s with jlink_device := jp.device }
            | none => s
          else s
        if s1.jlink_if.isNone then
          match entry.jlink with
          | none => (s1, some .keyError)
          | some jp =>
            let s2 :=
              match jp.jif with
              | some i => { s1 with jlink_if := some i }
              | none => s1
            if s2.jlink_speed.isNone then
              match jp.speed with
              | some v => finishKnownBoard kb entry { s2 with jlink_speed := some v }
              | none => finishKnownBoard kb entry s2
            else finishKnownBoard kb entry s2
        else
          if s1.jlink_speed.isNone then
            match entry.jlink with
            | none => (s1, some .keyError)
            | some jp =>
              let s2 :=
                match jp.speed with
                | some v => { s1 with jlink_speed := some v }
                | none => s1
              finishKnownBoard kb entry s2
          else finishKnownBoard kb entry s1

/-- `open_link_to_board` up to and including line 142 (argument adoption,
probe inference, known-boards application). -/
def open_link_pre (kb : KnownBoards) (em : List Emulator) (args : Args)
    (s : State) : State × Option TLError :=
  match inferBoard em (adoptArgs args s) with
  | (s1, some e) => (s1, some e)
  | (s1, none) => applyKnownBoard kb s1

/-- `open_link_to_board` (jlinkexe.py lines 106-153): after resolution, a
still-generic device is a configuration error (lines 144-147), otherwise the
still-unset optional settings get the hardcoded defaults `"swd"` and `1200`
(lines 150-153). -/
def open_link_to_board (kb : KnownBoards) (em : List Emulator) (args : Args)
    (s : State) : State × Option TLError :=
  match open_link_pre kb em args s with
  | (s1, some e) => (s1, some e)
  | (s1, none) =>
    if s1.jlink_device == "cortex-m0" then (s1, some .unknownJlinkDevice)
    else
      let s2 := if s1.jlink_if.isNone then { s1 with jlink_if := some "swd" } else s1
      let s3 := if s2.jlink_speed.isNone then { s2 with jlink_speed := some 1200 } else s2
      (s3, none)

/-! ## Memory Access Operations -/

/-- Byte sequences read from or written to the board. -/
abbrev Bytes := List UInt8

/-- One invocation of the Script Execution Engine (`_run_jtag_commands`):
the command script, the binary payload (if any), and the write flag.  A
memory operation reports its engine invocation in its successful result, so
an operation that fails before reaching the engine reports none. -/
structure JtagRun where
  commands : List String
  binary : Option Bytes
  write : Bool
deriving DecidableEq, Repr

/-- The ceiling guard `if self.address_maximum and address > self.address_maximum`
shared by the three memory operations (jlinkexe.py lines 343, 360, 400).
Python truthiness makes both `None` and `0` skip the check. -/
def addrCheck : Option Nat → Nat → Bool
  | none, _ => false
  | some m, a => (decide (m ≠ 0)) && decide (m < a)

/-- The four-command write script shared by `flash_binary` (lines 350-355)
and `clear_bytes` (lines 407-412). -/
def flashCommands (address : Nat) : List String :=
  ["h\nr",
   "loadbin {binary}, " ++ fmtHex address,
   "verifybin {binary}, " ++ fmtHex address,
   "r\nh\ng\nq"]

/-- Modelled from the spec: `_align_and_stretch_to_page` is defined in
`board_interface.py`, which is not among the sources.  Per spec section 4.4
the write is expanded to a page-aligned region covering a whole number of
pages, padded with the erased-state byte `0xFF`.  Its details affect no
claim; only the fact that `flash_binary` performs it before invoking the
engine matters. -/
def alignAndStretch (pageSize : Nat) (address : Nat) (binary : Bytes) :
    Nat × Bytes :=
  if pageSize = 0 then (address, binary)
  else
    let start := address - address % pageSize
    let body := List.replicate (address - start) (255 : UInt8) ++ binary
    let rem := body.length % pageSize
    (start, body ++ List.replicate (if rem = 0 then 0 else pageSize - rem) (255 : UInt8))

/-- `flash_binary` (jlinkexe.py lines 339-357): ceiling check, page
alignment, then one engine invocation with the write script. -/
def flash_binary (s : State) (address : Nat) (binary : Bytes) :
    Except TLError JtagRun :=
  if addrCheck s.address_maximum address then .error .channelAddressError
  else
    let p := match s.page_size with | .int n => n.toNat | .str _ => 0
    let ab := alignAndStretch p address binary
    .ok ⟨flashCommands ab.1, some ab.2, true⟩

/-- The read script of `read_range` (lines 363-385): in generic
`"cortex-m0"` mode the reduced no-reset sequence, otherwise the full
halt/reset/save/resume sequence. -/
def readCommands (device : String) (address length : Nat) : List String :=
  if device == "cortex-m0" then
    ["savebin {binary}, " ++ fmtHex address ++ " " ++ toString length,
     "\nq"]
  else
    ["h\nr",
     "savebin {binary}, " ++ fmtHex address ++ " " ++ toString length,
     "r\nh\ng\nq"]

/-- `read_range` (jlinkexe.py lines 359-397), parameterized by the engine
outcome `tool` (an error from `_run_jtag_commands`, or its returned value:
`None` or the bytes pulled from the scratch file).  After the ceiling check
and the engine run, the bytes are truncated to `length` when too many came
back (lines 388-397). -/
def read_range (s : State) (address length : Nat)
    (tool : Except TLError (Option Bytes)) :
    Except TLError (JtagRun × Bytes) :=
  if addrCheck s.address_maximum address then .error .channelAddressError
  else
    let run : JtagRun := ⟨readCommands s.jlink_device address length, none, false⟩
    match tool with
    | .error e => .error e
    | .ok result =>
      let read : Bytes := match result with | none => [] | some bs => bs
      let read := if length < read.length then read.take length else read
      .ok (run, read)

/-- `clear_bytes` (jlinkexe.py lines 399-414): ceiling check, then one
engine invocation writing 512 bytes of `0xFF` with the write script. -/
def clear_bytes (s : State) (address : Nat) : Except TLError JtagRun :=
  if addrCheck s.address_maximum address then .error .channelAddressError
  else .ok ⟨flashCommands address, some (List.replicate 512 (255 : UInt8)), true⟩

/-! ## On-Device Attribute Discovery -/

/-- One decoded attribute record (`{"key": ..., "value": ...}`); the decode
step in `board_interface.py` yields `None` for an empty slot, modelled by
wrapping records in `Option`. -/
structure AttrRecord where
  key : String
  value : String
deriving DecidableEq, Repr

/-- The body of the attribute loop of `determine_current_board` (jlinkexe.py
lines 425-433) for one record: board only if `self.board == None`,
architecture only if `self.arch == None`, `jldevice` overwritten
unconditionally, page size only if `self.page_size == 0` -- and the page
size receives the raw string value. -/
def applyAttribute (s : State) (a : Option AttrRecord) : State :=
  match a with
  | none => s
  | some attr =>
    let s1 := if attr.key == "board" && s.board.isNone then
                { s with board := some attr.value } else s
    let s2 := if attr.key == "arch" && s1.arch.isNone then
                { s1 with arch := some attr.value } else s1
    let s3 := if attr.key == "jldevice" then
                { s2 with jlink_device := attr.value } else s2
    if attr.key == "pagesize" && pyEqZero s3.page_size then
      { s3 with page_size := PyVal.str attr.value }
    else s3

/-- The whole attribute loop (lines 425-433) over the decoded sequence. -/
def applyAttributes (s : State) (attrs : List (Option AttrRecord)) : State :=
  attrs.foldl applyAttribute s

/-- The value of the first record with key `k` in a decoded attribute
sequence (skipping `None` slots), if any. -/
def firstAttr (k : String) : List (Option AttrRecord) → Option String
  | [] => none
  | a :: rest =>
    match a with
    | some attr => if attr.key == k then some attr.value else firstAttr k rest
    | none => firstAttr k rest

/-- The value of the last record with key `k` in a decoded attribute
sequence (skipping `None` slots), if any. -/
def lastAttr (k : String) : List (Option AttrRecord) → Option String
  | [] => none
  | a :: rest =>
    match lastAttr k rest with
    | some v => some v
    | none =>
      match a with
      | some attr => if attr.key == k then some attr.value else none
      | none => none

/-- The slow path of `determine_current_board` (lines 424-447): read and
apply the attribute table, re-run the shared configure step, then fail with
a configuration error if board, architecture, device or page size remain
unresolved.  The second component records that the flash was read. -/
def determineSlow (kb : KnownBoards) (attrs : List (Option AttrRecord))
    (s : State) : State × Bool × Option TLError :=
  let s1 := applyAttributes s attrs
  let s2 := configureFromKnownBoards kb s1
  if s2.board.isNone || s2.arch.isNone || s2.jlink_device == "cortex-m0"
     || pyEqZero s2.page_size then
    (s2, true, some .couldNotDetermineBoard)
  else (s2, true, none)

/-- `determine_current_board` (jlinkexe.py lines 416-447), parameterized by
the known-boards table and the decoded attribute sequence that
`get_all_attributes` (a `board_interface.py` collaborator) would return.
The result is the final Session State, whether the flash attribute table was
read, and the exception raised if any.  The fast path (lines 417-419) tests
`self.board and self.arch and self.jlink_device and self.page_size > 0`
with Python short-circuit truthiness; the final comparison can raise
`TypeError` when `page_size` holds a string. -/
def determine_current_board (kb : KnownBoards) (attrs : List (Option AttrRecord))
    (s : State) : State × Bool × Option TLError :=
  if strTruthy s.board && strTruthy s.arch && !(s.jlink_device == "") then
    match pyGtZero s.page_size with
    | .error e => (s, false, some e)
    | .ok true => (s, false, none)
    | .ok false => determineSlow kb attrs s
  else determineSlow kb attrs s

/-! ## Theorems -/

/-- C2: on a zero subprocess exit the combined output is classified against
the failure substrings in priority order -- `"USB...FAILED"` first, then the
target-unreachable phrasings, then the flash-programming phrasing -- so an
output containing the literal `"Can not connect to target."` and not the
probe-not-found substring fails with the target-unreachable error, and
absence of all the failure substrings means success. -/
theorem claim_c2_zero_exit_classification (out : String) :
    (containsSub "USB...FAILED" out = true →
      classifyJtagOutput 0 out = .error .usbFailed)
  ∧ (containsSub "USB...FAILED" out = false →
      containsSub "Can not connect to target." out = true →
      classifyJtagOutput 0 out = .error .cannotConnect)
  ∧ (containsSub "USB...FAILED" out = false →
      containsSub "Can not connect to target." out = false →
      containsSub "Cannot connect to target." out = false →
      containsSub "Error while programming flash" out = false →
      classifyJtagOutput 0 out = .ok ()) := by
  refine ⟨fun h1 => ?_, fun h1 h2 => ?_, fun h1 h2 h3 h4 => ?_⟩
  · simp [classifyJtagOutput, h1]
  · simp [classifyJtagOutput, h1, h2]
  · simp [classifyJtagOutput, h1, h2, h3, h4]

/-- Witness for C2: concrete runs of the classification at a zero exit
code, one hitting the target-unreachable substring and one clean. -/
theorem claim_c2_zero_exit_classification_witness :
    classifyJtagOutput 0 "Can not connect to target." = .error .cannotConnect ∧
    classifyJtagOutput 0 "Script processing completed." = .ok () :=
  ⟨(claim_c2_zero_exit_classification "Can not connect to target.").2.1
      (by decide) (by decide),
   (claim_c2_zero_exit_classification "Script processing completed.").2.2
      (by decide) (by decide) (by decide) (by decide)⟩

/-- C8: board identification from the probe list depends only on the first
enumerated record: the empty sequence yields none, and a first record whose
product name is exactly `"J-Link PRO"` yields `"stm32f4discovery"`,
whatever its other fields and whatever the later records. -/
theorem claim_c8_identify_board_first_record :
    get_tockloader_board_from_emulators [] = .ok none
  ∧ ∀ (em : Emulator) (rest : List Emulator),
      dictGet em "ProductName" = .ok "J-Link PRO" →
      get_tockloader_board_from_emulators (em :: rest) =
        .ok (some "stm32f4discovery") := by
  refine ⟨rfl, fun em rest h => ?_⟩
  simp [get_tockloader_board_from_emulators, h]

/-- Witness for C8: a first record with extra fields and a second record
that would map differently are both ignored. -/
theorem claim_c8_identify_board_first_record_witness :
    get_tockloader_board_from_emulators
      [[("Serial number", "979001"), ("ProductName", "J-Link PRO")],
       [("ProductName", "J-Link OB-K22-SiFive")]] =
      .ok (some "stm32f4discovery") :=
  claim_c8_identify_board_first_record.2 _ _ (by decide)

/-- C9 (code bug): probe enumeration swallows launch errors (missing tool,
nonzero exit, any other launch exception) and returns the empty list on a
non-Windows host -- but on Windows without the debug flag the cleanup code
`os.remove(temp_bin.name)` (line 335) references `temp_bin`, a name never
defined in `_list_emulators`, so the function raises `NameError` instead of
returning, whatever the subprocess outcome was. -/
theorem claim_c9_list_emulators_windows_nameerror :
    list_emulators true false SubprocessOutcome.notFound = .error .nameError
  ∧ list_emulators true false (.ran 0 "") = .error .nameError
  ∧ list_emulators false false SubprocessOutcome.notFound = .ok []
  ∧ list_emulators false false SubprocessOutcome.otherError = .ok []
  ∧ list_emulators false false (.ran 1 "") = .ok [] := by decide

/-- C4 (code bug): in the end-to-end discovery scenario with decoded
sequence `[{board, "b1"}, {pagesize, "512"}]`, board unset and page size 0,
the call does set the board to `"b1"` and does fail with the configuration
error, but the page size field receives the raw string `"512"`, not the
integer 512 -- and a string-valued page size makes the fast-path comparison
`self.page_size > 0` a `TypeError` on any later call. -/
theorem claim_c4_scenario_pagesize_stays_string :
    (determine_current_board []
        [some ⟨"board", "b1"⟩, some ⟨"pagesize", "512"⟩]
        ⟨none, none, "cortex-m0", none, none, none, PyVal.int 0⟩ =
      (⟨some "b1", none, "cortex-m0", none, none, none, PyVal.str "512"⟩,
       true, some .couldNotDetermineBoard))
  ∧ PyVal.str "512" ≠ PyVal.int 512
  ∧ pyGtZero (PyVal.str "512") = .error .typeError := by decide

/-- C5: when board, architecture, chip variant and a positive integer page
size are all already resolved, `determine_current_board` takes the fast
path: it reads no flash, changes no field, and a second call in succession
behaves the same. -/
theorem claim_c5_determine_current_board_idempotent (kb : KnownBoards)
    (attrs : List (Option AttrRecord)) (s : State) (n : Int)
    (hb : strTruthy s.board = true) (ha : strTruthy s.arch = true)
    (hd : s.jlink_device ≠ "") (_hg : s.jlink_device ≠ "cortex-m0")
    (hp : s.page_size = PyVal.int n) (hn : 0 < n) :
    determine_current_board kb attrs s = (s, false, none)
  ∧ determine_current_board kb attrs (determine_current_board kb attrs s).1 =
      (s, false, none) := by
  have h1 : determine_current_board kb attrs s = (s, false, none) := by
    simp [determine_current_board, hb, ha, hd, hp, pyGtZero, hn]
  exact ⟨h1, by rw [h1]; exact h1⟩

/-- Witness for C5: a fully resolved concrete state is left untouched, with
no flash read, by two successive calls. -/
theorem claim_c5_determine_current_board_idempotent_witness :
    determine_current_board [] []
      ⟨some "nrf52dk", some "cortex-m4", "nRF52840_xxAA", none, none, none,
       PyVal.int 512⟩ =
      (⟨some "nrf52dk", some "cortex-m4", "nRF52840_xxAA", none, none, none,
        PyVal.int 512⟩, false, none)
  ∧ determine_current_board [] []
      (determine_current_board [] []
        ⟨some "nrf52dk", some "cortex-m4", "nRF52840_xxAA", none, none, none,
         PyVal.int 512⟩).1 =
      (⟨some "nrf52dk", some "cortex-m4", "nRF52840_xxAA", none, none, none,
        PyVal.int 512⟩, false, none) :=
  claim_c5_determine_current_board_idempotent [] [] _ 512
    (by decide) (by decide) (by decide) (by decide) rfl (by decide)

/-- C1 counterexample: the ceiling guard is a Python truthiness test, so
the known ceiling `M = 0` is treated like no ceiling at all: at address
`1 > 0` none of the three memory operations raises the address-range error,
and `flash_binary` goes on to produce a script-engine invocation. -/
theorem claim_c1_zero_ceiling_counterexample :
    flash_binary ⟨none, none, "cortex-m0", none, none, some 0, PyVal.int 0⟩ 1 [] ≠
      .error .channelAddressError
  ∧ read_range ⟨none, none, "cortex-m0", none, none, some 0, PyVal.int 0⟩ 1 4
      (.ok (some [])) ≠ .error .channelAddressError
  ∧ clear_bytes ⟨none, none, "cortex-m0", none, none, some 0, PyVal.int 0⟩ 1 ≠
      .error .channelAddressError
  ∧ flash_binary ⟨none, none, "cortex-m0", none, none, some 0, PyVal.int 0⟩ 1 [] =
      .ok ⟨flashCommands 1, some [], true⟩ := by decide

/-- C1 (amended): for every nonzero known ceiling `M` and every address
`a > M`, each of the three memory operations fails with
`ChannelAddressErrorException`; the error is produced before and
independently of any script-engine outcome, so no subprocess is invoked
(an invocation is only ever reported inside a successful result). -/
theorem claim_c1_ceiling_rejects_all_ops (s : State) (M a len : Nat)
    (hmax : s.address_maximum = some M) (hM : 0 < M) (ha : M < a) :
    (∀ b, flash_binary s a b = .error .channelAddressError)
  ∧ (∀ tool, read_range s a len tool = .error .channelAddressError)
  ∧ clear_bytes s a = .error .channelAddressError := by
  have hc : addrCheck s.address_maximum a = true := by
    simp only [hmax, addrCheck, Bool.and_eq_true, decide_eq_true_eq]
    omega
  exact ⟨fun b => by simp [flash_binary, hc],
         fun tool => by simp [read_range, hc],
         by simp [clear_bytes, hc]⟩

/-- Witness for C1 (amended): ceiling 4, address 5. -/
theorem claim_c1_ceiling_rejects_all_ops_witness :
    flash_binary ⟨none, none, "d", none, none, some 4, PyVal.int 0⟩ 5 [] =
      .error .channelAddressError
  ∧ read_range ⟨none, none, "d", none, none, some 4, PyVal.int 0⟩ 5 8 (.ok none) =
      .error .channelAddressError
  ∧ clear_bytes ⟨none, none, "d", none, none, some 4, PyVal.int 0⟩ 5 =
      .error .channelAddressError :=
  ⟨(claim_c1_ceiling_rejects_all_ops _ 4 5 8 rfl (by decide) (by decide)).1 [],
   (claim_c1_ceiling_rejects_all_ops _ 4 5 8 rfl (by decide) (by decide)).2.1 (.ok none),
   (claim_c1_ceiling_rejects_all_ops _ 4 5 8 rfl (by decide) (by decide)).2.2⟩

/-- C6: whenever `read_range` returns, its byte sequence is at most
`length` bytes: a longer tool result is truncated to exactly `length`, a
shorter one is returned as-is with no padding. -/
theorem claim_c6_read_range_never_longer (s : State) (a len : Nat)
    (tool : Except TLError (Option Bytes)) (run : JtagRun) (bs : Bytes)
    (h : read_range s a len tool = .ok (run, bs)) :
    bs.length ≤ len
  ∧ ∀ r, tool = .ok (some r) →
      bs = (if len < r.length then r.take len else r) := by
  by_cases hc : addrCheck s.address_maximum a
  · simp [read_range, hc] at h
  · cases tool with
    | error e => simp [read_range, hc] at h
    | ok result =>
      cases result with
      | none =>
        simp [read_range, hc] at h
        obtain ⟨h1, h2⟩ := h
        subst h2
        exact ⟨by simp, fun r hr => by simp at hr⟩
      | some r =>
        simp [read_range, hc] at h
        obtain ⟨h1, h2⟩ := h
        subst h2
        constructor
        · split
          · simp only [List.length_take]
            omega
          · omega
        · intro r' hr'
          cases hr'
          rfl

/-- Witness for C6: a three-byte tool result is truncated to the requested
two bytes. -/
theorem claim_c6_read_range_never_longer_witness :
    ([1, 2] : Bytes).length ≤ 2
  ∧ ∀ r, (.ok (some [1, 2, 3]) : Except TLError (Option Bytes)) = .ok (some r) →
      ([1, 2] : Bytes) = (if 2 < r.length then r.take 2 else r) :=
  claim_c6_read_range_never_longer
    ⟨none, none, "d", none, none, none, PyVal.int 0⟩ 2 2 (.ok (some [1, 2, 3]))
    ⟨["h\nr", "savebin {binary}, 0x2 2", "r\nh\ng\nq"], none, false⟩ [1, 2]
    (by decide)

/-- Per-field effect of one step of the attribute loop: each record can
touch only the field whose key it carries, under that field's guard. -/
theorem applyAttribute_fields (s : State) (a : Option AttrRecord) :
    (applyAttribute s a).board =
      (match a with
       | some attr =>
         if attr.key == "board" && s.board.isNone then some attr.value else s.board
       | none => s.board)
  ∧ (applyAttribute s a).arch =
      (match a with
       | some attr =>
         if attr.key == "arch" && s.arch.isNone then some attr.value else s.arch
       | none => s.arch)
  ∧ (applyAttribute s a).jlink_device =
      (match a with
       | some attr => if attr.key == "jldevice" then attr.value else s.jlink_device
       | none => s.jlink_device)
  ∧ (applyAttribute s a).page_size =
      (match a with
       | some attr =>
         if attr.key == "pagesize" && pyEqZero s.page_size then PyVal.str attr.value
         else s.page_size
       | none => s.page_size)
  ∧ (applyAttribute s a).jlink_if = s.jlink_if
  ∧ (applyAttribute s a).jlink_speed = s.jlink_speed
  ∧ (applyAttribute s a).address_maximum = s.address_maximum := by
  cases a with
  | none => simp [applyAttribute]
  | some attr =>
    simp only [applyAttribute]
    by_cases h1 : attr.key = "board" <;> by_cases h2 : attr.key = "arch" <;>
      by_cases h3 : attr.key = "jldevice" <;> by_cases h4 : attr.key = "pagesize" <;>
      simp_all <;> split <;> simp_all

/-- The attribute loop sets the board to the first `"board"` record when the
board was unset, and never changes a set board. -/
theorem applyAttributes_board (attrs : List (Option AttrRecord)) (s : State) :
    (applyAttributes s attrs).board =
      (match s.board with
       | some b => some b
       | none => firstAttr "board" attrs) := by
  induction attrs generalizing s with
  | nil => cases h : s.board <;> simp [applyAttributes, h, firstAttr]
  | cons a rest ih =>
    have hstep := (applyAttribute_fields s a).1
    have hfold : applyAttributes s (a :: rest) =
      applyAttributes (applyAttribute s a) rest := rfl
    rw [hfold, ih (applyAttribute s a), hstep]
    rcases a with _ | ⟨k, v⟩
    · rfl
    · simp only [firstAttr]
      by_cases hk : k = "board"
      · subst hk
        cases hsb : s.board <;> simp
      · have hkb : (k == "board") = false := by simp [hk]
        simp [hkb]

/-- The attribute loop sets the architecture to the first `"arch"` record
when it was unset, and never changes a set architecture. -/
theorem applyAttributes_arch (attrs : List (Option AttrRecord)) (s : State) :
    (applyAttributes s attrs).arch =
      (match s.arch with
       | some b => some b
       | none => firstAttr "arch" attrs) := by
  induction attrs generalizing s with
  | nil => cases h : s.arch <;> simp [applyAttributes, h, firstAttr]
  | cons a rest ih =>
    have hstep := (applyAttribute_fields s a).2.1
    have hfold : applyAttributes s (a :: rest) =
      applyAttributes (applyAttribute s a) rest := rfl
    rw [hfold, ih (applyAttribute s a), hstep]
    rcases a with _ | ⟨k, v⟩
    · rfl
    · simp only [firstAttr]
      by_cases hk : k = "arch"
      · subst hk
        cases hsa : s.arch <;> simp
      · have hka : (k == "arch") = false := by simp [hk]
        simp [hka]

/-- The attribute loop overwrites the chip variant with every `"jldevice"`
record, so the last such record wins. -/
theorem applyAttributes_device (attrs : List (Option AttrRecord)) (s : State) :
    (applyAttributes s attrs).jlink_device =
      (lastAttr "jldevice" attrs).getD s.jlink_device := by
  induction attrs generalizing s with
  | nil => rfl
  | cons a rest ih =>
    have hstep := (applyAttribute_fields s a).2.2.1
    have hfold : applyAttributes s (a :: rest) =
      applyAttributes (applyAttribute s a) rest := rfl
    rw [hfold, ih (applyAttribute s a), hstep]
    rcases a with _ | ⟨k, v⟩
    · simp only [lastAttr]
      cases lastAttr "jldevice" rest <;> rfl
    · simp only [lastAttr]
      by_cases hk : k = "jldevice"
      · subst hk
        simp only [beq_self_eq_true, if_pos]
        cases lastAttr "jldevice" rest <;> rfl
      · have hkd : (k == "jldevice") = false := by simp [hk]
        simp only [hkd, Bool.false_eq_true, if_false]
        cases lastAttr "jldevice" rest <;> rfl

/-- The attribute loop sets the page size to the string value of the first
`"pagesize"` record when the page size was zero, and never changes a
nonzero page size. -/
theorem applyAttributes_pagesize (attrs : List (Option AttrRecord)) (s : State) :
    (applyAttributes s attrs).page_size =
      (if pyEqZero s.page_size then
        match firstAttr "pagesize" attrs with
        | some v => PyVal.str v
        | none => s.page_size
       else s.page_size) := by
  induction attrs generalizing s with
  | nil => split <;> rfl
  | cons a rest ih =>
    have hstep := (applyAttribute_fields s a).2.2.2.1
    have hfold : applyAttributes s (a :: rest) =
      applyAttributes (applyAttribute s a) rest := rfl
    rw [hfold, ih (applyAttribute s a), hstep]
    rcases a with _ | ⟨k, v⟩
    · rfl
    · by_cases hk : k = "pagesize"
      · subst hk
        cases hp : s.page_size with
        | int n =>
          by_cases hz : n = 0
          · subst hz
            simp [firstAttr, pyEqZero]
          · simp [firstAttr, pyEqZero, hz]
        | str t => simp [firstAttr, pyEqZero]
      · have hkp : (k == "pagesize") = false := by simp [hk]
        simp [firstAttr, hkp]

/-- The attribute loop never touches the interface mode, clock speed or
maximum address. -/
theorem applyAttributes_others (attrs : List (Option AttrRecord)) (s : State) :
    (applyAttributes s attrs).jlink_if = s.jlink_if ∧
    (applyAttributes s attrs).jlink_speed = s.jlink_speed ∧
    (applyAttributes s attrs).address_maximum = s.address_maximum := by
  induction attrs generalizing s with
  | nil => exact ⟨rfl, rfl, rfl⟩
  | cons a rest ih =>
    have h := applyAttribute_fields s a
    have hr := ih (applyAttribute s a)
    exact ⟨hr.1.trans h.2.2.2.2.1, hr.2.1.trans h.2.2.2.2.2.1,
           hr.2.2.trans h.2.2.2.2.2.2⟩

/-- C3 counterexample: with two `"jldevice"` records in the decoded
sequence, `determine_current_board` leaves the chip variant equal to the
value of the second record, not the first -- the `jldevice` assignment has
no guard, so it is not first-match-wins. -/
theorem claim_c3_first_match_counterexample :
    (determine_current_board []
        [some ⟨"jldevice", "dev1"⟩, some ⟨"jldevice", "dev2"⟩]
        ⟨none, none, "cortex-m0", none, none, none, PyVal.int 0⟩).1.jlink_device =
      "dev2"
  ∧ ("dev2" : String) ≠ "dev1" := by decide

/-- C3 (amended): the attribute loop applies, in table order, the first
`"board"` record (only if the board was unset), the first `"arch"` record
(only if the architecture was unset), and the first `"pagesize"` record
(only if the page size was still zero); the chip variant is overwritten by
every `"jldevice"` record, so the last such record takes effect. -/
theorem claim_c3_attribute_application_per_key (s : State)
    (attrs : List (Option AttrRecord)) :
    (applyAttributes s attrs).board =
      (match s.board with
       | some b => some b
       | none => firstAttr "board" attrs)
  ∧ (applyAttributes s attrs).arch =
      (match s.arch with
       | some b => some b
       | none => firstAttr "arch" attrs)
  ∧ (applyAttributes s attrs).jlink_device =
      (lastAttr "jldevice" attrs).getD s.jlink_device
  ∧ (applyAttributes s attrs).page_size =
      (if pyEqZero s.page_size then
        match firstAttr "pagesize" attrs with
        | some v => PyVal.str v
        | none => s.page_size
       else s.page_size) :=
  ⟨applyAttributes_board attrs s, applyAttributes_arch attrs s,
   applyAttributes_device attrs s, applyAttributes_pagesize attrs s⟩

/-- A dictionary lookup can only fail with `KeyError`. -/
theorem dictGet_error (d : Emulator) (k : String) (e : TLError)
    (h : dictGet d k = .error e) : e = .keyError := by
  unfold dictGet at h
  split at h
  · simp at h
  · exact (Except.error.inj h).symm

/-- Probe identification can only fail with `KeyError` (a record missing the
`ProductName` or `Serial number` key). -/
theorem get_board_error (em : List Emulator) (e : TLError)
    (h : get_tockloader_board_from_emulators em = .error e) : e = .keyError := by
  cases em with
  | nil => simp [get_tockloader_board_from_emulators] at h
  | cons emu rest =>
    simp only [get_tockloader_board_from_emulators] at h
    cases hpn : dictGet emu "ProductName" with
    | error e1 =>
      rw [hpn] at h
      dsimp only at h
      cases h
      exact dictGet_error _ _ _ hpn
    | ok pn =>
      rw [hpn] at h
      dsimp only at h
      split_ifs at h
      cases hsn : dictGet emu "Serial number" with
      | error e2 =>
        rw [hsn] at h
        dsimp only at h
        cases h
        exact dictGet_error _ _ _ hsn
      | ok sn =>
        rw [hsn] at h
        dsimp only at h
        split_ifs at h

/-- The probe-inference step of `open_link_to_board` can only fail with
`KeyError`. -/
theorem inferBoard_error (em : List Emulator) (s s1 : State) (e : TLError)
    (h : inferBoard em s = (s1, some e)) : e = .keyError := by
  unfold inferBoard at h
  split_ifs at h
  · cases hg : get_tockloader_board_from_emulators em with
    | error e1 =>
      rw [hg] at h
      dsimp only at h
      simp only [Prod.mk.injEq, Option.some.injEq] at h
      obtain ⟨h1, h2⟩ := h
      subst h2
      exact get_board_error _ _ hg
    | ok b =>
      rw [hg] at h
      cases b with
      | none => simp at h
      | some bd =>
        dsimp only at h
        split_ifs at h <;> simp at h
  · simp at h

/-- The address-maximum step of the known-boards application can only fail
with `KeyError`. -/
theorem finishKnownBoard_error (kb : KnownBoards) (entry : BoardEntry)
    (s s1 : State) (e : TLError)
    (h : finishKnownBoard kb entry s = (s1, some e)) : e = .keyError := by
  unfold finishKnownBoard at h
  split_ifs at h
  · cases hj : entry.jlink with
    | none => rw [hj] at h; simp_all
    | some jp =>
      rw [hj] at h
      dsimp only at h
      simp at h
  · simp at h

/-- The known-boards application can only fail with `KeyError`. -/
theorem applyKnownBoard_error (kb : KnownBoards) (s s1 : State) (e : TLError)
    (h : applyKnownBoard kb s = (s1, some e)) : e = .keyError := by
  unfold applyKnownBoard at h
  dsimp only at h
  repeat' split at h
  all_goals
    first
      | exact finishKnownBoard_error _ _ _ _ _ h
      | simp_all

/-- The whole resolution prefix of `open_link_to_board` (everything before
the generic-placeholder check) can only fail with `KeyError`. -/
theorem open_link_pre_error (kb : KnownBoards) (em : List Emulator)
    (args : Args) (s s1 : State) (e : TLError)
    (h : open_link_pre kb em args s = (s1, some e)) : e = .keyError := by
  unfold open_link_pre at h
  split at h
  · next heq =>
      cases h
      exact inferBoard_error _ _ _ _ heq
  · next heq =>
      exact applyKnownBoard_error _ _ _ _ h

/-- Shape of a successful `open_link_to_board` run: the resolution prefix
succeeded, the device is no longer the generic placeholder, and the final
state is the prefix state with the `"swd"` / `1200` defaults filled into
any still-unset optional field. -/
theorem open_link_ok_shape (kb : KnownBoards) (em : List Emulator)
    (args : Args) (s s2 : State)
    (h : open_link_to_board kb em args s = (s2, none)) :
    ∃ s1, open_link_pre kb em args s = (s1, none) ∧
      s1.jlink_device ≠ "cortex-m0" ∧
      s2 = { s1 with jlink_if := some (s1.jlink_if.getD "swd"),
                     jlink_speed := some (s1.jlink_speed.getD 1200) } := by
  rcases hpre : open_link_pre kb em args s with ⟨s1, e1⟩
  simp only [open_link_to_board, hpre] at h
  cases e1 with
  | some e => simp at h
  | none =>
    dsimp only at h
    by_cases hd : s1.jlink_device = "cortex-m0"
    · have hd' : (s1.jlink_device == "cortex-m0") = true := by simp [hd]
      simp [hd'] at h
    · have hd' : (s1.jlink_device == "cortex-m0") = false := by simp [hd]
      simp only [hd', Bool.false_eq_true, if_false, Prod.mk.injEq, and_true] at h
      refine ⟨s1, rfl, hd, ?_⟩
      rw [← h]
      obtain ⟨b, a, d, ji, js, am, ps⟩ := s1
      cases ji <;> cases js <;> simp

/-- C7: `open_link_to_board` raises the configuration error exactly when
the resolution prefix (argument adoption, probe inference, known-boards
application) completes with the chip variant still equal to the generic
placeholder; when it does not raise, still-unset optional fields receive
the defaults `"swd"` and `1200` and already-set fields are unchanged. -/
theorem claim_c7_open_link_defaults (kb : KnownBoards) (em : List Emulator)
    (args : Args) (s : State) :
    ((open_link_to_board kb em args s).2 = some TLError.unknownJlinkDevice ↔
      (open_link_pre kb em args s).2 = none ∧
      (open_link_pre kb em args s).1.jlink_device = "cortex-m0")
  ∧ ∀ s2, open_link_to_board kb em args s = (s2, none) →
      s2 = { (open_link_pre kb em args s).1 with
             jlink_if := some ((open_link_pre kb em args s).1.jlink_if.getD "swd"),
             jlink_speed :=
               some ((open_link_pre kb em args s).1.jlink_speed.getD 1200) } := by
  rcases hpre : open_link_pre kb em args s with ⟨s1, e1⟩
  simp only [open_link_to_board, hpre]
  cases e1 with
  | some e =>
    have hek := open_link_pre_error kb em args s s1 e hpre
    subst hek
    constructor
    · simp
    · intro s2 hcontra
      simp at hcontra
  | none =>
    dsimp only
    by_cases hd : s1.jlink_device = "cortex-m0"
    · have hd' : (s1.jlink_device == "cortex-m0") = true := by simp [hd]
      simp [hd', hd]
    · have hd' : (s1.jlink_device == "cortex-m0") = false := by simp [hd]
      simp only [hd', Bool.false_eq_true, if_false]
      constructor
      · simp [hd]
      · intro s2 h2
        obtain ⟨b, a, d, ji, js, am, ps⟩ := s1
        cases ji <;> cases js <;> simp_all

/-- Witness for C7: with the default `"cortex-m0"` argument, no probes and
an empty table the call fails with the configuration error; with an
explicit device it succeeds and fills in `"swd"` and `1200`. -/
theorem claim_c7_open_link_defaults_witness :
    (open_link_to_board [] [] ⟨"cortex-m0", none, none⟩
        ⟨none, none, "cortex-m0", none, none, none, PyVal.int 0⟩).2 =
      some TLError.unknownJlinkDevice
  ∧ (⟨none, none, "nrf52", some "swd", some 1200, none, PyVal.int 0⟩ : State) =
      { (open_link_pre [] [] ⟨"nrf52", none, none⟩
          ⟨none, none, "cortex-m0", none, none, none, PyVal.int 0⟩).1 with
        jlink_if := some ((open_link_pre [] [] ⟨"nrf52", none, none⟩
          ⟨none, none, "cortex-m0", none, none, none, PyVal.int 0⟩).1.jlink_if.getD
            "swd"),
        jlink_speed := some ((open_link_pre [] [] ⟨"nrf52", none, none⟩
          ⟨none, none, "cortex-m0", none, none, none,
           PyVal.int 0⟩).1.jlink_speed.getD 1200) } :=
  ⟨(claim_c7_open_link_defaults [] [] ⟨"cortex-m0", none, none⟩
      ⟨none, none, "cortex-m0", none, none, none, PyVal.int 0⟩).1.mpr
      ⟨by decide, by decide⟩,
   (claim_c7_open_link_defaults [] [] ⟨"nrf52", none, none⟩
      ⟨none, none, "cortex-m0", none, none, none, PyVal.int 0⟩).2
      ⟨none, none, "nrf52", some "swd", some 1200, none, PyVal.int 0⟩ (by decide)⟩

/-- A successful slow-path run of `determine_current_board` leaves the chip
variant different from the generic placeholder. -/
theorem determineSlow_ok_device (kb : KnownBoards)
    (attrs : List (Option AttrRecord)) (s s2 : State)
    (hsl : determineSlow kb attrs s = (s2, true, none)) :
    s2.jlink_device ≠ "cortex-m0" := by
  unfold determineSlow at hsl
  dsimp only at hsl
  split_ifs at hsl with hcond
  · simp at hsl
  · simp only [Prod.mk.injEq] at hsl
    obtain ⟨h1, -⟩ := hsl
    subst h1
    intro hdev
    apply hcond
    simp [hdev]

/-- The slow path always reports that the flash was read. -/
theorem determineSlow_didRead (kb : KnownBoards)
    (attrs : List (Option AttrRecord)) (s s2 : State) (e : Option TLError)
    (hsl : determineSlow kb attrs s = (s2, false, e)) : False := by
  unfold determineSlow at hsl
  dsimp only at hsl
  split_ifs at hsl <;> simp at hsl

/-- C10: the generic-placeholder invariant.  A successful
`open_link_to_board` never leaves the placeholder; a slow-path
`determine_current_board` success never leaves the placeholder (so while
the placeholder holds, no board-specific resolution has succeeded); the
fast path changes nothing; and `read_range` -- the attribute-reading path
-- selects its command script by the placeholder test: the reduced
no-reset sequence in generic mode, the full halt/reset/resume sequence
otherwise. -/
theorem claim_c10_generic_placeholder (kb : KnownBoards) (em : List Emulator)
    (args : Args) (attrs : List (Option AttrRecord)) (s : State) :
    (∀ s2, open_link_to_board kb em args s = (s2, none) →
       s2.jlink_device ≠ "cortex-m0")
  ∧ (∀ s2, determine_current_board kb attrs s = (s2, true, none) →
       s2.jlink_device ≠ "cortex-m0")
  ∧ (∀ s2 e, determine_current_board kb attrs s = (s2, false, e) → s2 = s)
  ∧ (∀ a len tool run bs, read_range s a len tool = .ok (run, bs) →
       run.commands = readCommands s.jlink_device a len)
  ∧ (∀ a len, s.jlink_device = "cortex-m0" →
       readCommands s.jlink_device a len =
         ["savebin {binary}, " ++ fmtHex a ++ " " ++ toString len, "\nq"])
  ∧ (∀ a len, s.jlink_device ≠ "cortex-m0" →
       readCommands s.jlink_device a len =
         ["h\nr", "savebin {binary}, " ++ fmtHex a ++ " " ++ toString len,
          "r\nh\ng\nq"]) := by
  refine ⟨?_, ?_, ?_, ?_, ?_, ?_⟩
  · intro s2 h
    obtain ⟨s1, hpre1, hdev, hs2⟩ := open_link_ok_shape kb em args s s2 h
    rw [hs2]
    exact hdev
  · intro s2 h
    unfold determine_current_board at h
    split_ifs at h with hfast
    · cases hg : pyGtZero s.page_size with
      | error e1 =>
        rw [hg] at h
        dsimp only at h
        simp at h
      | ok b =>
        rw [hg] at h
        cases b with
        | true =>
          dsimp only at h
          simp at h
        | false =>
          dsimp only at h
          exact determineSlow_ok_device kb attrs s s2 h
    · exact determineSlow_ok_device kb attrs s s2 h
  · intro s2 e h
    unfold determine_current_board at h
    split_ifs at h with hfast
    · cases hg : pyGtZero s.page_size with
      | error e1 =>
        rw [hg] at h
        dsimp only at h
        simp only [Prod.mk.injEq] at h
        exact h.1.symm
      | ok b =>
        rw [hg] at h
        cases b with
        | true =>
          dsimp only at h
          simp only [Prod.mk.injEq] at h
          exact h.1.symm
        | false =>
          dsimp only at h
          exact absurd h (fun hh => determineSlow_didRead kb attrs s s2 e hh)
    · exact absurd h (fun hh => determineSlow_didRead kb attrs s s2 e hh)
  · intro a len tool run bs h
    by_cases hc : addrCheck s.address_maximum a
    · simp [read_range, hc] at h
    · cases tool with
      | error e => simp [read_range, hc] at h
      | ok result =>
        cases result with
        | none =>
          simp [read_range, hc] at h
          obtain ⟨h1, h2⟩ := h
          subst h1
          rfl
        | some r =>
          simp [read_range, hc] at h
          obtain ⟨h1, h2⟩ := h
          subst h1
          rfl
  · intro a len hd
    rw [hd]
    simp [readCommands]
  · intro a len hd
    have hd' : (s.jlink_device == "cortex-m0") = false := by simp [hd]
    simp [readCommands, hd']

/-- Witness for C10: the generic placeholder selects the reduced no-reset
read script, a resolved device the full one. -/
theorem claim_c10_generic_placeholder_witness :
    readCommands "cortex-m0" 516 8 =
      ["savebin {binary}, " ++ fmtHex 516 ++ " " ++ toString 8, "\nq"]
  ∧ readCommands "nRF52840_xxAA" 516 8 =
      ["h\nr", "savebin {binary}, " ++ fmtHex 516 ++ " " ++ toString 8,
       "r\nh\ng\nq"] :=
  ⟨(claim_c10_generic_placeholder [] [] ⟨"cortex-m0", none, none⟩ []
      ⟨none, none, "cortex-m0", none, none, none, PyVal.int 0⟩).2.2.2.2.1
      516 8 rfl,
   (claim_c10_generic_placeholder [] [] ⟨"x", none, none⟩ []
      ⟨none, none, "nRF52840_xxAA", none, none, none, PyVal.int 0⟩).2.2.2.2.2
      516 8 (by decide)⟩

end Tockloader
